import Mathlib

/-!
Shallow embedding of `src/squish/core.pyx` (the squish numeric kernel).

Modelling conventions:
- `FLOAT_T` (a floating-point type in the source) is modelled as `ℚ`; every
  property proved here is a structural identity about which expression the
  code computes, not about rounding.
- `INT_T` (a machine integer type) is modelled as `Int` for stored array
  elements and as `Nat` for sizes, indices and the bitset words; the claims
  under study range over non-negative values only.
- `sizeof(INT_T)` is kept abstract as a parameter `s` (the byte width of a
  storage word), since the concrete width is fixed by the C toolchain.
- Pointer-receiver functions (`Vector2D* self`, `Matrix2x2* self`) are
  embedded with explicit state passing over a heap `Nat → Vector2D`
  (resp. `Nat → Matrix2x2`); a field assignment `self.x = e` becomes a
  `Function.update` of the heap at the receiver's address, and `return self`
  becomes returning the receiver's address. Copy-returning functions perform
  no writes in the source, so they return the heap unchanged together with
  the freshly constructed value.
- The operation-table singletons `VSO`, `VCO`, `MSO`, `MCO` are embedded as
  structures of function references filled exactly as in lines 19–33 of the
  source. The `self`/`copy` table fields carried by each `Vector2D` /
  `Matrix2x2` instance are value-copies of these singletons and are dropped
  from the value structures; only the numeric components are modelled.
-/

namespace Squish

/-! ### FlatArray2D (`IArray` / `FArray`) -/

/-- `IArray`: flat row-major storage of `INT_T` elements plus a shape pair
`(rows, cols)`. -/
structure IArray where
  arr : List Int
  shape : Nat × Nat

/-- Constructor `_IArray`: wraps a caller-supplied buffer and shape (the
function-pointer fields `get`/`set` it wires are the global functions
below). -/
def _IArray (arr : List Int) (shape : Nat × Nat) : IArray :=
  ⟨arr, shape⟩

/-- `iarray_valid_indices`, as a predicate: `true` iff the (commented-out)
bounds check would raise `IndexError` reporting the array's shape. The
source tests `index[0] > self.shape[0] or index[1] > self.shape[1]`. -/
def iarray_valid_indices (self : IArray) (index : Nat × Nat) : Bool :=
  index.1 > self.shape.1 || index.2 > self.shape.2

/-- `iarray_get`: reads `self.arr[index[0]*self.shape[1] + index[1]]`. -/
def iarray_get (self : IArray) (index : Nat × Nat) : Int :=
  self.arr.getD (index.1 * self.shape.2 + index.2) 0

/-- `iarray_set`: writes `self.arr[index[0]*self.shape[1] + index[1]] = val`. -/
def iarray_set (self : IArray) (index : Nat × Nat) (val : Int) : IArray :=
  { self with arr := self.arr.set (index.1 * self.shape.2 + index.2) val }

/-- `FArray`: flat row-major storage of `FLOAT_T` elements plus a shape. -/
structure FArray where
  arr : List ℚ
  shape : Nat × Nat

/-- Constructor `_FArray`. -/
def _FArray (arr : List ℚ) (shape : Nat × Nat) : FArray :=
  ⟨arr, shape⟩

/-- `farray_valid_indices`: same `>` test as the integer variant. -/
def farray_valid_indices (self : FArray) (index : Nat × Nat) : Bool :=
  index.1 > self.shape.1 || index.2 > self.shape.2

/-- `farray_get`. -/
def farray_get (self : FArray) (index : Nat × Nat) : ℚ :=
  self.arr.getD (index.1 * self.shape.2 + index.2) 0

/-- `farray_set`. -/
def farray_set (self : FArray) (index : Nat × Nat) (val : ℚ) : FArray :=
  { self with arr := self.arr.set (index.1 * self.shape.2 + index.2) val }

/-! ### BitSet -/

/-- Constructor `_BitSet`: `calloc(((elements/sizeof(INT_T))+1), sizeof(INT_T))`,
i.e. `elements / s + 1` zero words, where `s = sizeof(INT_T)` is the byte
width of a storage word. -/
def _BitSet (s : Nat) (elements : Nat) : List Nat :=
  List.replicate (elements / s + 1) 0

/-- `bitset_add`: `index = val/sizeof(INT_T)`; `old = bits[index]`;
`rel_index = val - index*sizeof(INT_T)`;
`bits[index] = (1 << rel_index) | old`; returns `old == bits[index]`
(reading the word back after the store). -/
def bitset_add (s : Nat) (self : List Nat) (val : Nat) : List Nat × Bool :=
  let index := val / s
  let old := self.getD index 0
  let rel_index := val - index * s
  let bits := self.set index ((1 <<< rel_index) ||| old)
  (bits, old == bits.getD index 0)

/-! ### Vector2D and Matrix2x2 values and heaps -/

/-- `Vector2D`: two `FLOAT_T` components. -/
structure Vector2D where
  x : ℚ
  y : ℚ
deriving DecidableEq

/-- `Matrix2x2`: four `FLOAT_T` components, row-major `[[a,b],[c,d]]`. -/
structure Matrix2x2 where
  a : ℚ
  b : ℚ
  c : ℚ
  d : ℚ
deriving DecidableEq

/-- Constructor `_Vector2D` (the table fields `self := VSO`, `copy := VCO`
and the function pointers it wires are process-wide constants, dropped from
the value). -/
def _Vector2D (x y : ℚ) : Vector2D :=
  ⟨x, y⟩

/-- Constructor `_Matrix2x2`. -/
def _Matrix2x2 (a b c d : ℚ) : Matrix2x2 :=
  ⟨a, b, c, d⟩

/-- Heap of `Vector2D` values addressed by `Nat` pointers. -/
def VHeap : Type := Nat → Vector2D

/-- Heap of `Matrix2x2` values addressed by `Nat` pointers. -/
def MHeap : Type := Nat → Matrix2x2

/-! ### Vector2D methods

Each mutating (`self`) method performs its field assignments in source
order as heap updates at the receiver address `p` and returns `p` itself
(the source's `return self`). Simultaneous tuple assignments become a
single update reading the pre-assignment components. -/

/-- `v_equals`: exact component-wise equality. -/
def v_equals (h : VHeap) (p : Nat) (w : Vector2D) : Bool :=
  ((h p).x == w.x) && ((h p).y == w.y)

/-- `v_neg_s`: `self.x = -self.x; self.y = -self.y; return self`. -/
def v_neg_s (h : VHeap) (p : Nat) : VHeap × Nat :=
  let h1 := Function.update h p { h p with x := -(h p).x }
  let h2 := Function.update h1 p { h1 p with y := -(h1 p).y }
  (h2, p)

/-- `v_vadd_s`: `self.x += w.x; self.y += w.y; return self`. -/
def v_vadd_s (h : VHeap) (p : Nat) (w : Vector2D) : VHeap × Nat :=
  let h1 := Function.update h p { h p with x := (h p).x + w.x }
  let h2 := Function.update h1 p { h1 p with y := (h1 p).y + w.y }
  (h2, p)

/-- `v_vsub_s`. -/
def v_vsub_s (h : VHeap) (p : Nat) (w : Vector2D) : VHeap × Nat :=
  let h1 := Function.update h p { h p with x := (h p).x - w.x }
  let h2 := Function.update h1 p { h1 p with y := (h1 p).y - w.y }
  (h2, p)

/-- `v_vmul_s`. -/
def v_vmul_s (h : VHeap) (p : Nat) (w : Vector2D) : VHeap × Nat :=
  let h1 := Function.update h p { h p with x := (h p).x * w.x }
  let h2 := Function.update h1 p { h1 p with y := (h1 p).y * w.y }
  (h2, p)

/-- `v_vdiv_s`. -/
def v_vdiv_s (h : VHeap) (p : Nat) (w : Vector2D) : VHeap × Nat :=
  let h1 := Function.update h p { h p with x := (h p).x / w.x }
  let h2 := Function.update h1 p { h1 p with y := (h1 p).y / w.y }
  (h2, p)

/-- `v_sadd_s`. -/
def v_sadd_s (h : VHeap) (p : Nat) (s : ℚ) : VHeap × Nat :=
  let h1 := Function.update h p { h p with x := (h p).x + s }
  let h2 := Function.update h1 p { h1 p with y := (h1 p).y + s }
  (h2, p)

/-- `v_ssub_s`: `self.x -= s; self.y -= s; return self`. -/
def v_ssub_s (h : VHeap) (p : Nat) (s : ℚ) : VHeap × Nat :=
  let h1 := Function.update h p { h p with x := (h p).x - s }
  let h2 := Function.update h1 p { h1 p with y := (h1 p).y - s }
  (h2, p)

/-- `v_smul_s`. -/
def v_smul_s (h : VHeap) (p : Nat) (s : ℚ) : VHeap × Nat :=
  let h1 := Function.update h p { h p with x := (h p).x * s }
  let h2 := Function.update h1 p { h1 p with y := (h1 p).y * s }
  (h2, p)

/-- `v_sdiv_s`. -/
def v_sdiv_s (h : VHeap) (p : Nat) (s : ℚ) : VHeap × Nat :=
  let h1 := Function.update h p { h p with x := (h p).x / s }
  let h2 := Function.update h1 p { h1 p with y := (h1 p).y / s }
  (h2, p)

/-- `v_matmul_s`: simultaneous
`self.x, self.y = self.x*m.a + self.y*m.c, self.x*m.b + self.y*m.d`. -/
def v_matmul_s (h : VHeap) (p : Nat) (m : Matrix2x2) : VHeap × Nat :=
  (Function.update h p
    ⟨(h p).x * m.a + (h p).y * m.c, (h p).x * m.b + (h p).y * m.d⟩, p)

/-- `rot_s`: simultaneous `self.x, self.y = -self.y, self.x`. -/
def rot_s (h : VHeap) (p : Nat) : VHeap × Nat :=
  (Function.update h p ⟨-(h p).y, (h p).x⟩, p)

/-- `v_neg_c`: `return _Vector2D(-self.x, -self.y)` — no heap write. -/
def v_neg_c (h : VHeap) (p : Nat) : VHeap × Vector2D :=
  (h, _Vector2D (-(h p).x) (-(h p).y))

/-- `v_vadd_c`. -/
def v_vadd_c (h : VHeap) (p : Nat) (w : Vector2D) : VHeap × Vector2D :=
  (h, _Vector2D ((h p).x + w.x) ((h p).y + w.y))

/-- `v_vsub_c`. -/
def v_vsub_c (h : VHeap) (p : Nat) (w : Vector2D) : VHeap × Vector2D :=
  (h, _Vector2D ((h p).x - w.x) ((h p).y - w.y))

/-- `v_vmul_c`. -/
def v_vmul_c (h : VHeap) (p : Nat) (w : Vector2D) : VHeap × Vector2D :=
  (h, _Vector2D ((h p).x * w.x) ((h p).y * w.y))

/-- `v_vdiv_c`. -/
def v_vdiv_c (h : VHeap) (p : Nat) (w : Vector2D) : VHeap × Vector2D :=
  (h, _Vector2D ((h p).x / w.x) ((h p).y / w.y))

/-- `v_sadd_c`. -/
def v_sadd_c (h : VHeap) (p : Nat) (s : ℚ) : VHeap × Vector2D :=
  (h, _Vector2D ((h p).x + s) ((h p).y + s))

/-- `v_ssub_c`: the source returns `_Vector2D(self.x + s, self.y + s)`
(an addition, exactly as written on line 226). -/
def v_ssub_c (h : VHeap) (p : Nat) (s : ℚ) : VHeap × Vector2D :=
  (h, _Vector2D ((h p).x + s) ((h p).y + s))

/-- `v_smul_c`. -/
def v_smul_c (h : VHeap) (p : Nat) (s : ℚ) : VHeap × Vector2D :=
  (h, _Vector2D ((h p).x * s) ((h p).y * s))

/-- `v_sdiv_c`. -/
def v_sdiv_c (h : VHeap) (p : Nat) (s : ℚ) : VHeap × Vector2D :=
  (h, _Vector2D ((h p).x / s) ((h p).y / s))

/-- `v_matmul_c`. -/
def v_matmul_c (h : VHeap) (p : Nat) (m : Matrix2x2) : VHeap × Vector2D :=
  (h, _Vector2D ((h p).x * m.a + (h p).y * m.c) ((h p).x * m.b + (h p).y * m.d))

/-- `rot_c`. -/
def rot_c (h : VHeap) (p : Nat) : VHeap × Vector2D :=
  (h, _Vector2D (-(h p).y) ((h p).x))

/-- `dot`: `self.x*w.x + self.y*w.y`. -/
def dot (h : VHeap) (p : Nat) (w : Vector2D) : ℚ :=
  (h p).x * w.x + (h p).y * w.y

/-- `v_vecmul` (outer product): returns
`_Matrix2x2(self.x*v.x, self.x*v.y, self.y*v.x, self.y*v.y)`. -/
def v_vecmul (h : VHeap) (p : Nat) (v : Vector2D) : VHeap × Matrix2x2 :=
  (h, _Matrix2x2 ((h p).x * v.x) ((h p).x * v.y) ((h p).y * v.x) ((h p).y * v.y))

/-! ### Matrix2x2 methods -/

/-- `m_equals`: exact component-wise equality. -/
def m_equals (h : MHeap) (p : Nat) (m : Matrix2x2) : Bool :=
  ((h p).a == m.a) && ((h p).b == m.b) && ((h p).c == m.c) && ((h p).d == m.d)

/-- `m_vecmul` (matrix-vector product): returns
`_Vector2D(self.a*v.x + self.b*v.y, self.c*v.x + self.d*v.y)`. -/
def m_vecmul (h : MHeap) (p : Nat) (v : Vector2D) : MHeap × Vector2D :=
  (h, _Vector2D ((h p).a * v.x + (h p).b * v.y) ((h p).c * v.x + (h p).d * v.y))

/-- `m_neg_s`: simultaneous
`self.a, self.b, self.c, self.d = -self.a, -self.b, -self.c, -self.d`. -/
def m_neg_s (h : MHeap) (p : Nat) : MHeap × Nat :=
  (Function.update h p ⟨-(h p).a, -(h p).b, -(h p).c, -(h p).d⟩, p)

/-- `m_madd_s`: `self.a += m.a; self.b += m.b; self.c += m.c; self.d += m.d`. -/
def m_madd_s (h : MHeap) (p : Nat) (m : Matrix2x2) : MHeap × Nat :=
  let h1 := Function.update h p { h p with a := (h p).a + m.a }
  let h2 := Function.update h1 p { h1 p with b := (h1 p).b + m.b }
  let h3 := Function.update h2 p { h2 p with c := (h2 p).c + m.c }
  let h4 := Function.update h3 p { h3 p with d := (h3 p).d + m.d }
  (h4, p)

/-- `m_msub_s`. -/
def m_msub_s (h : MHeap) (p : Nat) (m : Matrix2x2) : MHeap × Nat :=
  let h1 := Function.update h p { h p with a := (h p).a - m.a }
  let h2 := Function.update h1 p { h1 p with b := (h1 p).b - m.b }
  let h3 := Function.update h2 p { h2 p with c := (h2 p).c - m.c }
  let h4 := Function.update h3 p { h3 p with d := (h3 p).d - m.d }
  (h4, p)

/-- `m_mmul_s` (element-wise multiply). -/
def m_mmul_s (h : MHeap) (p : Nat) (m : Matrix2x2) : MHeap × Nat :=
  let h1 := Function.update h p { h p with a := (h p).a * m.a }
  let h2 := Function.update h1 p { h1 p with b := (h1 p).b * m.b }
  let h3 := Function.update h2 p { h2 p with c := (h2 p).c * m.c }
  let h4 := Function.update h3 p { h3 p with d := (h3 p).d * m.d }
  (h4, p)

/-- `m_mdiv_s` (element-wise divide). -/
def m_mdiv_s (h : MHeap) (p : Nat) (m : Matrix2x2) : MHeap × Nat :=
  let h1 := Function.update h p { h p with a := (h p).a / m.a }
  let h2 := Function.update h1 p { h1 p with b := (h1 p).b / m.b }
  let h3 := Function.update h2 p { h2 p with c := (h2 p).c / m.c }
  let h4 := Function.update h3 p { h3 p with d := (h3 p).d / m.d }
  (h4, p)

/-- `m_sadd_s`. -/
def m_sadd_s (h : MHeap) (p : Nat) (s : ℚ) : MHeap × Nat :=
  let h1 := Function.update h p { h p with a := (h p).a + s }
  let h2 := Function.update h1 p { h1 p with b := (h1 p).b + s }
  let h3 := Function.update h2 p { h2 p with c := (h2 p).c + s }
  let h4 := Function.update h3 p { h3 p with d := (h3 p).d + s }
  (h4, p)

/-- `m_ssub_s`. -/
def m_ssub_s (h : MHeap) (p : Nat) (s : ℚ) : MHeap × Nat :=
  let h1 := Function.update h p { h p with a := (h p).a - s }
  let h2 := Function.update h1 p { h1 p with b := (h1 p).b - s }
  let h3 := Function.update h2 p { h2 p with c := (h2 p).c - s }
  let h4 := Function.update h3 p { h3 p with d := (h3 p).d - s }
  (h4, p)

/-- `m_smul_s`. -/
def m_smul_s (h : MHeap) (p : Nat) (s : ℚ) : MHeap × Nat :=
  let h1 := Function.update h p { h p with a := (h p).a * s }
  let h2 := Function.update h1 p { h1 p with b := (h1 p).b * s }
  let h3 := Function.update h2 p { h2 p with c := (h2 p).c * s }
  let h4 := Function.update h3 p { h3 p with d := (h3 p).d * s }
  (h4, p)

/-- `m_sdiv_s`. -/
def m_sdiv_s (h : MHeap) (p : Nat) (s : ℚ) : MHeap × Nat :=
  let h1 := Function.update h p { h p with a := (h p).a / s }
  let h2 := Function.update h1 p { h1 p with b := (h1 p).b / s }
  let h3 := Function.update h2 p { h2 p with c := (h2 p).c / s }
  let h4 := Function.update h3 p { h3 p with d := (h3 p).d / s }
  (h4, p)

/-- `m_matmul_s`: simultaneous assignment of the true 2x2 product
`self.a*m.a + self.b*m.c, self.a*m.b + self.b*m.d,
 self.c*m.a + self.d*m.c, self.c*m.b + self.d*m.d`. -/
def m_matmul_s (h : MHeap) (p : Nat) (m : Matrix2x2) : MHeap × Nat :=
  (Function.update h p
    ⟨(h p).a * m.a + (h p).b * m.c, (h p).a * m.b + (h p).b * m.d,
     (h p).c * m.a + (h p).d * m.c, (h p).c * m.b + (h p).d * m.d⟩, p)

/-- `m_transpose_s`: simultaneous `self.b, self.c = self.c, self.b`. -/
def m_transpose_s (h : MHeap) (p : Nat) : MHeap × Nat :=
  (Function.update h p { h p with b := (h p).c, c := (h p).b }, p)

/-- `m_neg_c`. -/
def m_neg_c (h : MHeap) (p : Nat) : MHeap × Matrix2x2 :=
  (h, _Matrix2x2 (-(h p).a) (-(h p).b) (-(h p).c) (-(h p).d))

/-- `m_madd_c`. -/
def m_madd_c (h : MHeap) (p : Nat) (m : Matrix2x2) : MHeap × Matrix2x2 :=
  (h, _Matrix2x2 ((h p).a + m.a) ((h p).b + m.b) ((h p).c + m.c) ((h p).d + m.d))

/-- `m_msub_c`. -/
def m_msub_c (h : MHeap) (p : Nat) (m : Matrix2x2) : MHeap × Matrix2x2 :=
  (h, _Matrix2x2 ((h p).a - m.a) ((h p).b - m.b) ((h p).c - m.c) ((h p).d - m.d))

/-- `m_mmul_c` (element-wise). -/
def m_mmul_c (h : MHeap) (p : Nat) (m : Matrix2x2) : MHeap × Matrix2x2 :=
  (h, _Matrix2x2 ((h p).a * m.a) ((h p).b * m.b) ((h p).c * m.c) ((h p).d * m.d))

/-- `m_mdiv_c` (element-wise). -/
def m_mdiv_c (h : MHeap) (p : Nat) (m : Matrix2x2) : MHeap × Matrix2x2 :=
  (h, _Matrix2x2 ((h p).a / m.a) ((h p).b / m.b) ((h p).c / m.c) ((h p).d / m.d))

/-- `m_sadd_c`. -/
def m_sadd_c (h : MHeap) (p : Nat) (s : ℚ) : MHeap × Matrix2x2 :=
  (h, _Matrix2x2 ((h p).a + s) ((h p).b + s) ((h p).c + s) ((h p).d + s))

/-- `m_ssub_c` (a genuine subtraction, unlike the vector copy variant). -/
def m_ssub_c (h : MHeap) (p : Nat) (s : ℚ) : MHeap × Matrix2x2 :=
  (h, _Matrix2x2 ((h p).a - s) ((h p).b - s) ((h p).c - s) ((h p).d - s))

/-- `m_smul_c`. -/
def m_smul_c (h : MHeap) (p : Nat) (s : ℚ) : MHeap × Matrix2x2 :=
  (h, _Matrix2x2 ((h p).a * s) ((h p).b * s) ((h p).c * s) ((h p).d * s))

/-- `m_sdiv_c`. -/
def m_sdiv_c (h : MHeap) (p : Nat) (s : ℚ) : MHeap × Matrix2x2 :=
  (h, _Matrix2x2 ((h p).a / s) ((h p).b / s) ((h p).c / s) ((h p).d / s))

/-- `m_matmul_c`: true 2x2 product into a fresh matrix. -/
def m_matmul_c (h : MHeap) (p : Nat) (m : Matrix2x2) : MHeap × Matrix2x2 :=
  (h, _Matrix2x2 ((h p).a * m.a + (h p).b * m.c) ((h p).a * m.b + (h p).b * m.d)
                 ((h p).c * m.a + (h p).d * m.c) ((h p).c * m.b + (h p).d * m.d))

/-- `m_transpose_c`: returns `_Matrix2x2(self.a, self.c, self.b, self.d)`. -/
def m_transpose_c (h : MHeap) (p : Nat) : MHeap × Matrix2x2 :=
  (h, _Matrix2x2 ((h p).a) ((h p).c) ((h p).b) ((h p).d))

/-! ### Operation tables (process-wide singletons) -/

/-- `VectorSelfOps`: one function reference per mutating vector operation. -/
structure VectorSelfOps where
  neg : VHeap → Nat → VHeap × Nat
  vadd : VHeap → Nat → Vector2D → VHeap × Nat
  vsub : VHeap → Nat → Vector2D → VHeap × Nat
  vmul : VHeap → Nat → Vector2D → VHeap × Nat
  vdiv : VHeap → Nat → Vector2D → VHeap × Nat
  sadd : VHeap → Nat → ℚ → VHeap × Nat
  ssub : VHeap → Nat → ℚ → VHeap × Nat
  smul : VHeap → Nat → ℚ → VHeap × Nat
  sdiv : VHeap → Nat → ℚ → VHeap × Nat
  matmul : VHeap → Nat → Matrix2x2 → VHeap × Nat
  rot : VHeap → Nat → VHeap × Nat

/-- `VectorCopyOps`: one function reference per copy-returning vector
operation, same names as the self table. -/
structure VectorCopyOps where
  neg : VHeap → Nat → VHeap × Vector2D
  vadd : VHeap → Nat → Vector2D → VHeap × Vector2D
  vsub : VHeap → Nat → Vector2D → VHeap × Vector2D
  vmul : VHeap → Nat → Vector2D → VHeap × Vector2D
  vdiv : VHeap → Nat → Vector2D → VHeap × Vector2D
  sadd : VHeap → Nat → ℚ → VHeap × Vector2D
  ssub : VHeap → Nat → ℚ → VHeap × Vector2D
  smul : VHeap → Nat → ℚ → VHeap × Vector2D
  sdiv : VHeap → Nat → ℚ → VHeap × Vector2D
  matmul : VHeap → Nat → Matrix2x2 → VHeap × Vector2D
  rot : VHeap → Nat → VHeap × Vector2D

/-- `MatrixSelfOps`. -/
structure MatrixSelfOps where
  neg : MHeap → Nat → MHeap × Nat
  madd : MHeap → Nat → Matrix2x2 → MHeap × Nat
  msub : MHeap → Nat → Matrix2x2 → MHeap × Nat
  mmul : MHeap → Nat → Matrix2x2 → MHeap × Nat
  mdiv : MHeap → Nat → Matrix2x2 → MHeap × Nat
  sadd : MHeap → Nat → ℚ → MHeap × Nat
  ssub : MHeap → Nat → ℚ → MHeap × Nat
  smul : MHeap → Nat → ℚ → MHeap × Nat
  sdiv : MHeap → Nat → ℚ → MHeap × Nat
  matmul : MHeap → Nat → Matrix2x2 → MHeap × Nat
  T : MHeap → Nat → MHeap × Nat

/-- `MatrixCopyOps`. -/
structure MatrixCopyOps where
  neg : MHeap → Nat → MHeap × Matrix2x2
  madd : MHeap → Nat → Matrix2x2 → MHeap × Matrix2x2
  msub : MHeap → Nat → Matrix2x2 → MHeap × Matrix2x2
  mmul : MHeap → Nat → Matrix2x2 → MHeap × Matrix2x2
  mdiv : MHeap → Nat → Matrix2x2 → MHeap × Matrix2x2
  sadd : MHeap → Nat → ℚ → MHeap × Matrix2x2
  ssub : MHeap → Nat → ℚ → MHeap × Matrix2x2
  smul : MHeap → Nat → ℚ → MHeap × Matrix2x2
  sdiv : MHeap → Nat → ℚ → MHeap × Matrix2x2
  matmul : MHeap → Nat → Matrix2x2 → MHeap × Matrix2x2
  T : MHeap → Nat → MHeap × Matrix2x2

/-- `VSO`, as assigned on lines 19–21 of the source. -/
def VSO : VectorSelfOps :=
  { neg := v_neg_s, vadd := v_vadd_s, vsub := v_vsub_s, vmul := v_vmul_s,
    vdiv := v_vdiv_s, sadd := v_sadd_s, ssub := v_ssub_s, smul := v_smul_s,
    sdiv := v_sdiv_s, matmul := v_matmul_s, rot := rot_s }

/-- `VCO`, lines 23–25. -/
def VCO : VectorCopyOps :=
  { neg := v_neg_c, vadd := v_vadd_c, vsub := v_vsub_c, vmul := v_vmul_c,
    vdiv := v_vdiv_c, sadd := v_sadd_c, ssub := v_ssub_c, smul := v_smul_c,
    sdiv := v_sdiv_c, matmul := v_matmul_c, rot := rot_c }

/-- `MSO`, lines 27–29. -/
def MSO : MatrixSelfOps :=
  { neg := m_neg_s, madd := m_madd_s, msub := m_msub_s, mmul := m_mmul_s,
    mdiv := m_mdiv_s, sadd := m_sadd_s, ssub := m_ssub_s, smul := m_smul_s,
    sdiv := m_sdiv_s, matmul := m_matmul_s, T := m_transpose_s }

/-- `MCO`, lines 31–33. -/
def MCO : MatrixCopyOps :=
  { neg := m_neg_c, madd := m_madd_c, msub := m_msub_c, mmul := m_mmul_c,
    mdiv := m_mdiv_c, sadd := m_sadd_c, ssub := m_ssub_c, smul := m_smul_c,
    sdiv := m_sdiv_c, matmul := m_matmul_c, T := m_transpose_c }

/-! ### Theorems -/

/-- C1: scalar-subtract broadcasts the scalar to both components; the
mutating variant `v_ssub_s` leaves the receiver holding `(x-s, y-s)` (and
returns the receiver), while the copy variant `v_ssub_c` computes
`(x+s, y+s)` instead of `(x-s, y-s)` and leaves the heap unchanged. -/
theorem scalar_sub_self_subtracts_copy_adds (h : VHeap) (p : Nat) (s : ℚ) :
    (v_ssub_s h p s).1 p = ⟨(h p).x - s, (h p).y - s⟩ ∧
    (v_ssub_s h p s).2 = p ∧
    (v_ssub_c h p s).1 = h ∧
    (v_ssub_c h p s).2 = ⟨(h p).x + s, (h p).y + s⟩ := by
  simp [v_ssub_s, v_ssub_c, _Vector2D, Function.update_same]

/-- C6: `matmul` on `Matrix2x2`, in both the self and the copy variant,
computes the true 2x2 matrix product
`(a*a'+b*c', a*b'+b*d', c*a'+d*c', c*b'+d*d')`, not an element-wise
product. -/
theorem matmul_is_true_matrix_product (h : MHeap) (p : Nat) (m : Matrix2x2) :
    (m_matmul_s h p m).1 ((m_matmul_s h p m).2) =
      ⟨(h p).a * m.a + (h p).b * m.c, (h p).a * m.b + (h p).b * m.d,
       (h p).c * m.a + (h p).d * m.c, (h p).c * m.b + (h p).d * m.d⟩ ∧
    (m_matmul_c h p m).2 =
      ⟨(h p).a * m.a + (h p).b * m.c, (h p).a * m.b + (h p).b * m.d,
       (h p).c * m.a + (h p).d * m.c, (h p).c * m.b + (h p).d * m.d⟩ := by
  simp [m_matmul_s, m_matmul_c, _Matrix2x2, Function.update_same]

/-- C8: applying transpose twice restores the matrix exactly, in both
variants: transposing a receiver in place twice restores the original heap
(and keeps returning the same receiver), and copy-transposing the value a
copy-transpose produced (stored at any address `q`) yields the original
matrix component for component. -/
theorem transpose_twice_is_identity (h : MHeap) (p q : Nat) :
    m_transpose_s (m_transpose_s h p).1 (m_transpose_s h p).2 = (h, p) ∧
    (m_transpose_c
      (Function.update ((m_transpose_c h p).1) q ((m_transpose_c h p).2))
      q).2 = h p := by
  simp [m_transpose_s, m_transpose_c, _Matrix2x2, Function.update_same,
    Function.update_idem, Function.update_eq_self]

/-- C9: `dot` returns `x1*x2 + y1*y2`, and is commutative: evaluating it
with receiver `p` against the value stored at `q` equals evaluating it with
receiver `q` against the value stored at `p`. -/
theorem dot_formula_and_commutative :
    (∀ (h : VHeap) (p : Nat) (w : Vector2D),
      dot h p w = (h p).x * w.x + (h p).y * w.y) ∧
    (∀ (h : VHeap) (p q : Nat), dot h p (h q) = dot h q (h p)) := by
  constructor
  · intro h p w
    rfl
  · intro h p q
    simp only [dot]
    ring

/-- C5: for every operation in the Vector2D and Matrix2x2 tables, the
mutating (self) variant rewrites only the receiver's cell of the heap
(`Function.update` at the receiver's address) and returns that same
receiver address, while the copy variant returns the heap unchanged
together with a freshly constructed value; in particular copy negate of a
vector `v` yields `(-v.x, -v.y)` with the heap untouched, and self negate
stores `(-v.x, -v.y)` in the receiver and returns the receiver itself. -/
theorem self_ops_mutate_receiver_copy_ops_leave_it
    (h : VHeap) (g : MHeap) (p : Nat) (w : Vector2D) (s : ℚ) (m : Matrix2x2) :
    v_neg_s h p = (Function.update h p ⟨-(h p).x, -(h p).y⟩, p) ∧
    v_vadd_s h p w = (Function.update h p ⟨(h p).x + w.x, (h p).y + w.y⟩, p) ∧
    v_vsub_s h p w = (Function.update h p ⟨(h p).x - w.x, (h p).y - w.y⟩, p) ∧
    v_vmul_s h p w = (Function.update h p ⟨(h p).x * w.x, (h p).y * w.y⟩, p) ∧
    v_vdiv_s h p w = (Function.update h p ⟨(h p).x / w.x, (h p).y / w.y⟩, p) ∧
    v_sadd_s h p s = (Function.update h p ⟨(h p).x + s, (h p).y + s⟩, p) ∧
    v_ssub_s h p s = (Function.update h p ⟨(h p).x - s, (h p).y - s⟩, p) ∧
    v_smul_s h p s = (Function.update h p ⟨(h p).x * s, (h p).y * s⟩, p) ∧
    v_sdiv_s h p s = (Function.update h p ⟨(h p).x / s, (h p).y / s⟩, p) ∧
    v_matmul_s h p m =
      (Function.update h p
        ⟨(h p).x * m.a + (h p).y * m.c, (h p).x * m.b + (h p).y * m.d⟩, p) ∧
    rot_s h p = (Function.update h p ⟨-(h p).y, (h p).x⟩, p) ∧
    v_neg_c h p = (h, ⟨-(h p).x, -(h p).y⟩) ∧
    v_vadd_c h p w = (h, ⟨(h p).x + w.x, (h p).y + w.y⟩) ∧
    v_vsub_c h p w = (h, ⟨(h p).x - w.x, (h p).y - w.y⟩) ∧
    v_vmul_c h p w = (h, ⟨(h p).x * w.x, (h p).y * w.y⟩) ∧
    v_vdiv_c h p w = (h, ⟨(h p).x / w.x, (h p).y / w.y⟩) ∧
    v_sadd_c h p s = (h, ⟨(h p).x + s, (h p).y + s⟩) ∧
    v_ssub_c h p s = (h, ⟨(h p).x + s, (h p).y + s⟩) ∧
    v_smul_c h p s = (h, ⟨(h p).x * s, (h p).y * s⟩) ∧
    v_sdiv_c h p s = (h, ⟨(h p).x / s, (h p).y / s⟩) ∧
    v_matmul_c h p m =
      (h, ⟨(h p).x * m.a + (h p).y * m.c, (h p).x * m.b + (h p).y * m.d⟩) ∧
    rot_c h p = (h, ⟨-(h p).y, (h p).x⟩) ∧
    m_neg_s g p = (Function.update g p ⟨-(g p).a, -(g p).b, -(g p).c, -(g p).d⟩, p) ∧
    m_madd_s g p m =
      (Function.update g p
        ⟨(g p).a + m.a, (g p).b + m.b, (g p).c + m.c, (g p).d + m.d⟩, p) ∧
    m_msub_s g p m =
      (Function.update g p
        ⟨(g p).a - m.a, (g p).b - m.b, (g p).c - m.c, (g p).d - m.d⟩, p) ∧
    m_mmul_s g p m =
      (Function.update g p
        ⟨(g p).a * m.a, (g p).b * m.b, (g p).c * m.c, (g p).d * m.d⟩, p) ∧
    m_mdiv_s g p m =
      (Function.update g p
        ⟨(g p).a / m.a, (g p).b / m.b, (g p).c / m.c, (g p).d / m.d⟩, p) ∧
    m_sadd_s g p s =
      (Function.update g p ⟨(g p).a + s, (g p).b + s, (g p).c + s, (g p).d + s⟩, p) ∧
    m_ssub_s g p s =
      (Function.update g p ⟨(g p).a - s, (g p).b - s, (g p).c - s, (g p).d - s⟩, p) ∧
    m_smul_s g p s =
      (Function.update g p ⟨(g p).a * s, (g p).b * s, (g p).c * s, (g p).d * s⟩, p) ∧
    m_sdiv_s g p s =
      (Function.update g p ⟨(g p).a / s, (g p).b / s, (g p).c / s, (g p).d / s⟩, p) ∧
    m_matmul_s g p m =
      (Function.update g p
        ⟨(g p).a * m.a + (g p).b * m.c, (g p).a * m.b + (g p).b * m.d,
         (g p).c * m.a + (g p).d * m.c, (g p).c * m.b + (g p).d * m.d⟩, p) ∧
    m_transpose_s g p =
      (Function.update g p ⟨(g p).a, (g p).c, (g p).b, (g p).d⟩, p) ∧
    m_neg_c g p = (g, ⟨-(g p).a, -(g p).b, -(g p).c, -(g p).d⟩) ∧
    m_madd_c g p m = (g, ⟨(g p).a + m.a, (g p).b + m.b, (g p).c + m.c, (g p).d + m.d⟩) ∧
    m_msub_c g p m = (g, ⟨(g p).a - m.a, (g p).b - m.b, (g p).c - m.c, (g p).d - m.d⟩) ∧
    m_mmul_c g p m = (g, ⟨(g p).a * m.a, (g p).b * m.b, (g p).c * m.c, (g p).d * m.d⟩) ∧
    m_mdiv_c g p m = (g, ⟨(g p).a / m.a, (g p).b / m.b, (g p).c / m.c, (g p).d / m.d⟩) ∧
    m_sadd_c g p s = (g, ⟨(g p).a + s, (g p).b + s, (g p).c + s, (g p).d + s⟩) ∧
    m_ssub_c g p s = (g, ⟨(g p).a - s, (g p).b - s, (g p).c - s, (g p).d - s⟩) ∧
    m_smul_c g p s = (g, ⟨(g p).a * s, (g p).b * s, (g p).c * s, (g p).d * s⟩) ∧
    m_sdiv_c g p s = (g, ⟨(g p).a / s, (g p).b / s, (g p).c / s, (g p).d / s⟩) ∧
    m_matmul_c g p m =
      (g, ⟨(g p).a * m.a + (g p).b * m.c, (g p).a * m.b + (g p).b * m.d,
           (g p).c * m.a + (g p).d * m.c, (g p).c * m.b + (g p).d * m.d⟩) ∧
    m_transpose_c g p = (g, ⟨(g p).a, (g p).c, (g p).b, (g p).d⟩) := by
  simp [v_neg_s, v_vadd_s, v_vsub_s, v_vmul_s, v_vdiv_s, v_sadd_s, v_ssub_s,
    v_smul_s, v_sdiv_s, v_matmul_s, rot_s, v_neg_c, v_vadd_c, v_vsub_c,
    v_vmul_c, v_vdiv_c, v_sadd_c, v_ssub_c, v_smul_c, v_sdiv_c, v_matmul_c,
    rot_c, m_neg_s, m_madd_s, m_msub_s, m_mmul_s, m_mdiv_s, m_sadd_s,
    m_ssub_s, m_smul_s, m_sdiv_s, m_matmul_s, m_transpose_s, m_neg_c,
    m_madd_c, m_msub_c, m_mmul_c, m_mdiv_c, m_sadd_c, m_ssub_c, m_smul_c,
    m_sdiv_c, m_matmul_c, m_transpose_c, _Vector2D, _Matrix2x2,
    Function.update_same, Function.update_idem]

/-- C10: for every operation name paired in the self and copy tables —
Vector2D's `neg, vadd, vsub, vmul, vdiv, sadd, smul, sdiv, matmul, rot`
and Matrix2x2's `neg, madd, msub, mmul, mdiv, sadd, ssub, smul, sdiv,
matmul, T`, i.e. every pair except Vector2D's `ssub` — the value the copy
variant returns has exactly the components the self variant leaves in its
receiver. -/
theorem copy_table_returns_what_self_table_stores
    (h : VHeap) (g : MHeap) (p : Nat) (w : Vector2D) (s : ℚ) (m : Matrix2x2) :
    (VSO.neg h p).1 ((VSO.neg h p).2) = (VCO.neg h p).2 ∧
    (VSO.vadd h p w).1 ((VSO.vadd h p w).2) = (VCO.vadd h p w).2 ∧
    (VSO.vsub h p w).1 ((VSO.vsub h p w).2) = (VCO.vsub h p w).2 ∧
    (VSO.vmul h p w).1 ((VSO.vmul h p w).2) = (VCO.vmul h p w).2 ∧
    (VSO.vdiv h p w).1 ((VSO.vdiv h p w).2) = (VCO.vdiv h p w).2 ∧
    (VSO.sadd h p s).1 ((VSO.sadd h p s).2) = (VCO.sadd h p s).2 ∧
    (VSO.smul h p s).1 ((VSO.smul h p s).2) = (VCO.smul h p s).2 ∧
    (VSO.sdiv h p s).1 ((VSO.sdiv h p s).2) = (VCO.sdiv h p s).2 ∧
    (VSO.matmul h p m).1 ((VSO.matmul h p m).2) = (VCO.matmul h p m).2 ∧
    (VSO.rot h p).1 ((VSO.rot h p).2) = (VCO.rot h p).2 ∧
    (MSO.neg g p).1 ((MSO.neg g p).2) = (MCO.neg g p).2 ∧
    (MSO.madd g p m).1 ((MSO.madd g p m).2) = (MCO.madd g p m).2 ∧
    (MSO.msub g p m).1 ((MSO.msub g p m).2) = (MCO.msub g p m).2 ∧
    (MSO.mmul g p m).1 ((MSO.mmul g p m).2) = (MCO.mmul g p m).2 ∧
    (MSO.mdiv g p m).1 ((MSO.mdiv g p m).2) = (MCO.mdiv g p m).2 ∧
    (MSO.sadd g p s).1 ((MSO.sadd g p s).2) = (MCO.sadd g p s).2 ∧
    (MSO.ssub g p s).1 ((MSO.ssub g p s).2) = (MCO.ssub g p s).2 ∧
    (MSO.smul g p s).1 ((MSO.smul g p s).2) = (MCO.smul g p s).2 ∧
    (MSO.sdiv g p s).1 ((MSO.sdiv g p s).2) = (MCO.sdiv g p s).2 ∧
    (MSO.matmul g p m).1 ((MSO.matmul g p m).2) = (MCO.matmul g p m).2 ∧
    (MSO.T g p).1 ((MSO.T g p).2) = (MCO.T g p).2 := by
  simp [VSO, VCO, MSO, MCO, v_neg_s, v_vadd_s, v_vsub_s, v_vmul_s, v_vdiv_s,
    v_sadd_s, v_smul_s, v_sdiv_s, v_matmul_s, rot_s, v_neg_c, v_vadd_c,
    v_vsub_c, v_vmul_c, v_vdiv_c, v_sadd_c, v_smul_c, v_sdiv_c, v_matmul_c,
    rot_c, m_neg_s, m_madd_s, m_msub_s, m_mmul_s, m_mdiv_s, m_sadd_s,
    m_ssub_s, m_smul_s, m_sdiv_s, m_matmul_s, m_transpose_s, m_neg_c,
    m_madd_c, m_msub_c, m_mmul_c, m_mdiv_c, m_sadd_c, m_ssub_c, m_smul_c,
    m_sdiv_c, m_matmul_c, m_transpose_c, _Vector2D, _Matrix2x2,
    Function.update_same]

/-- C2: evaluation of the bounds check at the claim's failing input. On a
2x3 array the index `(2, 0)` has `row = rows`, i.e. it violates the
required `0 <= row < rows`, yet the check raises nothing (`false` = no
`IndexError`), because the source compares with `>` instead of `>=`; such
an access reads past the end of the `rows*cols` buffer. -/
theorem bounds_check_passes_row_equal_rows :
    iarray_valid_indices (_IArray [0, 0, 0, 0, 0, 0] (2, 3)) (2, 0) = false ∧
    farray_valid_indices (_FArray [0, 0, 0, 0, 0, 0] (2, 3)) (2, 0) = false ∧
    ¬ ((2 : Nat) < 2) := by
  refine ⟨rfl, rfl, by decide⟩

/-- C7 counterexample: with a 4-byte storage word (`sizeof(INT_T) = 4`,
hence a word bit width of `8*4 = 32`), the constructor called with capacity
hint 32 allocates `32/4 + 1 = 9` words, not the claimed
`ceil(32 / 32) + 1 = 2` words. -/
theorem bitset_alloc_differs_from_bitwidth_ceil :
    (_BitSet 4 32).length = 9 ∧
    (32 + 8 * 4 - 1) / (8 * 4) + 1 = 2 ∧
    (_BitSet 4 32).length ≠ (32 + 8 * 4 - 1) / (8 * 4) + 1 := by
  refine ⟨by simp [_BitSet], by decide, by simp [_BitSet]⟩

/-- C7 amended: for every capacity hint `elements`, the constructor
allocates exactly `elements / s + 1` words — floor division by
`s = sizeof(INT_T)`, the byte width of a storage word, not ceiling division
by the word's bit width — and every allocated word is zero. -/
theorem bitset_alloc_words_and_zero_init (s elements : Nat) :
    (_BitSet s elements).length = elements / s + 1 ∧
    ∀ w ∈ _BitSet s elements, w = 0 := by
  constructor
  · simp [_BitSet]
  · intro w hw
    exact List.eq_of_mem_replicate hw

/-- C7 amended-claim witness: the constructor with 4-byte words and
capacity hint 8 allocates `8/4 + 1` words, and the word 0 drawn from the
buffer is zero. -/
theorem bitset_alloc_words_and_zero_init_witness :
    (_BitSet 4 8).length = 8 / 4 + 1 ∧
    (0 : Nat) ∈ _BitSet 4 8 ∧ (0 : Nat) = 0 :=
  ⟨(bitset_alloc_words_and_zero_init 4 8).1, by decide,
    (bitset_alloc_words_and_zero_init 4 8).2 0 (by decide)⟩

/-- Reading a freshly written cell of a list. -/
theorem getD_set_self_of_lt {α : Type} (l : List α) (i : Nat) (a d : α)
    (h : i < l.length) : (l.set i a).getD i d = a := by
  rw [List.getD_eq_getElem?_getD, List.getElem?_set_self h]
  rfl

/-- Reading an untouched cell of a list. -/
theorem getD_set_ne_of_ne {α : Type} (l : List α) (i j : Nat) (a d : α)
    (hij : i ≠ j) : (l.set i a).getD j d = l.getD j d := by
  rw [List.getD_eq_getElem?_getD, List.getD_eq_getElem?_getD,
    List.getElem?_set_ne hij]

/-- The row-major offset of an in-bounds index is inside the buffer. -/
theorem flat_offset_lt (i j rows cols : Nat) (hi : i < rows) (hj : j < cols) :
    i * cols + j < rows * cols := by
  calc i * cols + j < (i + 1) * cols := by
        rw [Nat.succ_mul]
        exact Nat.add_lt_add_left hj _
    _ ≤ rows * cols := Nat.mul_le_mul_right cols hi

/-- C4: on a flat array of shape `(rows, cols)` whose buffer has length
`rows*cols`, element `(i, j)` lives at flat offset `i*cols + j`, so writing
then reading the same in-bounds index returns the written value, for the
integer and the floating-point monomorphization alike. -/
theorem flat_array_set_then_get (rows cols i j : Nat)
    (hi : i < rows) (hj : j < cols)
    (a : IArray) (hsa : a.shape = (rows, cols)) (hla : a.arr.length = rows * cols)
    (v : Int)
    (b : FArray) (hsb : b.shape = (rows, cols)) (hlb : b.arr.length = rows * cols)
    (q : ℚ) :
    iarray_get (iarray_set a (i, j) v) (i, j) = v ∧
    farray_get (farray_set b (i, j) q) (i, j) = q := by
  constructor
  · simp only [iarray_get, iarray_set, hsa]
    exact getD_set_self_of_lt _ _ _ _
      (by rw [hla]; exact flat_offset_lt i j rows cols hi hj)
  · simp only [farray_get, farray_set, hsb]
    exact getD_set_self_of_lt _ _ _ _
      (by rw [hlb]; exact flat_offset_lt i j rows cols hi hj)

/-- C4 witness: the spec's concrete 2x3 example, `set((1,2), 42)` then
`get((1,2))` returns 42, by instantiating the round-trip theorem. -/
theorem flat_array_set_then_get_witness :
    ((1 : Nat) < 2 ∧ (2 : Nat) < 3) ∧
    iarray_get (iarray_set (_IArray [0, 0, 0, 0, 0, 0] (2, 3)) (1, 2) 42) (1, 2) = 42 ∧
    farray_get (farray_set (_FArray [0, 0, 0, 0, 0, 0] (2, 3)) (1, 2) 42) (1, 2) = 42 :=
  ⟨⟨by decide, by decide⟩,
    flat_array_set_then_get 2 3 1 2 (by decide) (by decide)
      (_IArray [0, 0, 0, 0, 0, 0] (2, 3)) rfl rfl 42
      (_FArray [0, 0, 0, 0, 0, 0] (2, 3)) rfl rfl 42⟩

/-- The source computes the in-word bit position as
`val - (val/sizeof)*sizeof`, which is `val % sizeof`. -/
theorem rel_index_eq_mod (v s : Nat) : v - v / s * s = v % s := by
  rw [Nat.sub_eq_iff_eq_add (Nat.div_mul_le_self v s)]
  exact (Nat.mod_add_div' v s).symm

/-- After `bitset_add`, the word addressed by `val` holds its old value
or-ed with the single bit `1 << (val % s)`. -/
theorem bitset_add_word (s : Nat) (bits : List Nat) (v : Nat)
    (hv : v / s < bits.length) :
    ((bitset_add s bits v).1).getD (v / s) 0 =
      (2 ^ (v % s)) ||| bits.getD (v / s) 0 := by
  simp only [bitset_add, rel_index_eq_mod, Nat.one_shiftLeft]
  exact getD_set_self_of_lt _ _ _ _ hv

/-- C3: for every value `val` whose word index is within the allocated
buffer, `bitset_add` sets the bit representing `val` (bit `val % s` of word
`val / s`), returns `true` exactly when that bit was already set before the
call, and changes the membership bit of no other value; concretely, with
4-byte words on a fresh all-zero set, the first `add 5` returns `false`, a
second `add 5` returns `true`, and `add 0` / `add 5` leave each other's
bits intact. -/
theorem bitset_add_sets_bit_and_reports_previous
    (s : Nat) (bits : List Nat) (v : Nat) (hv : v / s < bits.length) :
    Nat.testBit (((bitset_add s bits v).1).getD (v / s) 0) (v % s) = true ∧
    ((bitset_add s bits v).2 = true ↔
      Nat.testBit (bits.getD (v / s) 0) (v % s) = true) ∧
    (∀ u : Nat, u ≠ v →
      Nat.testBit (((bitset_add s bits v).1).getD (u / s) 0) (u % s) =
        Nat.testBit (bits.getD (u / s) 0) (u % s)) ∧
    (bitset_add 4 (_BitSet 4 8) 5).2 = false ∧
    (bitset_add 4 (bitset_add 4 (_BitSet 4 8) 5).1 5).2 = true ∧
    (bitset_add 4 (bitset_add 4 (_BitSet 4 8) 5).1 0).2 = false ∧
    (bitset_add 4 (bitset_add 4 (_BitSet 4 8) 0).1 5).2 = false ∧
    Nat.testBit (((bitset_add 4 (bitset_add 4 (_BitSet 4 8) 5).1 0).1).getD 1 0) 1 = true ∧
    Nat.testBit (((bitset_add 4 (bitset_add 4 (_BitSet 4 8) 0).1 5).1).getD 0 0) 0 = true := by
  refine ⟨?_, ?_, ?_, by decide, by decide, by decide, by decide, by decide, by decide⟩
  · rw [bitset_add_word s bits v hv]
    simp [Nat.testBit_or, Nat.testBit_two_pow_self]
  · have hret : (bitset_add s bits v).2 =
        (bits.getD (v / s) 0 == ((bitset_add s bits v).1).getD (v / s) 0) := rfl
    rw [hret, bitset_add_word s bits v hv, beq_iff_eq]
    constructor
    · intro heq
      have ht := congrArg (fun n => Nat.testBit n (v % s)) heq
      simpa [Nat.testBit_or, Nat.testBit_two_pow_self] using ht
    · intro hb
      apply Nat.eq_of_testBit_eq
      intro j
      by_cases hj : v % s = j
      · subst hj
        simp only [Nat.testBit_or, Nat.testBit_two_pow_self, Bool.true_or]
        exact hb
      · simp only [Nat.testBit_or, Nat.testBit_two_pow_of_ne hj, Bool.false_or]
  · intro u hu
    by_cases hidx : u / s = v / s
    · have hmod : u % s ≠ v % s := by
        intro hmodeq
        apply hu
        calc u = s * (u / s) + u % s := (Nat.div_add_mod u s).symm
          _ = s * (v / s) + v % s := by rw [hidx, hmodeq]
          _ = v := Nat.div_add_mod v s
      rw [hidx, bitset_add_word s bits v hv]
      simp [Nat.testBit_or, Nat.testBit_two_pow_of_ne (Ne.symm hmod)]
    · have huntouched : ((bitset_add s bits v).1).getD (u / s) 0 =
          bits.getD (u / s) 0 := by
        simp only [bitset_add]
        exact getD_set_ne_of_ne _ _ _ _ _ (fun hvv => hidx hvv.symm)
      rw [huntouched]

/-- C3 witness: instantiates the bitset theorem at 4-byte words on the
fresh 3-word set built for capacity hint 8, adding the value 5. -/
theorem bitset_add_sets_bit_and_reports_previous_witness :
    5 / 4 < (_BitSet 4 8).length ∧
    Nat.testBit (((bitset_add 4 (_BitSet 4 8) 5).1).getD (5 / 4) 0) (5 % 4) = true ∧
    ((bitset_add 4 (_BitSet 4 8) 5).2 = true ↔
      Nat.testBit ((_BitSet 4 8).getD (5 / 4) 0) (5 % 4) = true) :=
  ⟨by decide,
    (bitset_add_sets_bit_and_reports_previous 4 (_BitSet 4 8) 5 (by decide)).1,
    (bitset_add_sets_bit_and_reports_previous 4 (_BitSet 4 8) 5 (by decide)).2.1⟩

end Squish
